import Mathlib

/-!
Verification of the ApRES start-stop-pulling survey controller and the
apreshttp radar client.  Shallow embedding: the Python functions
`ApRES_RTK_SAR.triggerApRES`, `ApRES_RTK_SAR.updateDistance`,
`ApRES_RTK_SAR.robustBurst`, `apreshttp.API.assignRootURL`,
`apreshttp.APIChild.formCompleteURL`, `apreshttp.Radar.burst`,
`apreshttp.Radar.trialBurst`, `apreshttp.Radar.__getResults`,
`apreshttp.Radar.Config.set` and `apreshttp.Data.DirectoryListing.load`
are translated to executable Lean definitions and their specified
properties are proved or refuted.
-/

namespace ApRES

/-- Acquisition state of the position controller (`self.stat` in
`ApRES_RTK_SAR`): "moving forward", "moving backward", "well positioned". -/
inductive Stat where
  | movingForward
  | movingBackward
  | wellPositioned
deriving DecidableEq

/-- Controller configuration: the hysteresis band `[min_err, max_err]`
around the step size (in centimetres) and the RTK-sensitivity flag
(`self.min_err`, `self.max_err`, `self.RTKsens`). -/
structure BandConfig where
  minErr : ℚ
  maxErr : ℚ
  RTKsens : Bool
deriving DecidableEq

/-- First block of `triggerApRES`: `moving forward` with
`moveDist > max_err` becomes `moving backward`. -/
def fwdStep (cfg : BandConfig) (d : ℚ) (s : Stat) : Stat :=
  if s = Stat.movingForward ∧ cfg.maxErr < d then Stat.movingBackward else s

/-- Second block of `triggerApRES`: `moving backward` with
`moveDist < min_err` becomes `moving forward` (evaluated sequentially
after the first block, not as an `elif`). -/
def backStep (cfg : BandConfig) (d : ℚ) (s : Stat) : Stat :=
  if s = Stat.movingBackward ∧ d < cfg.minErr then Stat.movingForward else s

/-- Third block of `triggerApRES`: any state other than
`well positioned` with `min_err < moveDist < max_err` becomes
`well positioned`, fires `robustBurst` and is immediately re-armed to
`moving forward`.  The returned Bool records whether `robustBurst` was
invoked (equivalently, whether the state passed through
`well positioned` transiently). -/
def bandStep (cfg : BandConfig) (d : ℚ) (s : Stat) : Stat × Bool :=
  if s ≠ Stat.wellPositioned ∧ cfg.minErr < d ∧ d < cfg.maxErr then
    (Stat.movingForward, true)
  else (s, false)

/-- State-level body of `triggerApRES` for a displacement `d`: the three
sequential `if` blocks of the source. -/
def triggerCore (cfg : BandConfig) (d : ℚ) (s : Stat) : Stat × Bool :=
  bandStep cfg d (backStep cfg d (fwdStep cfg d s))

/-- One call of `triggerApRES` at fix quality `q`: the whole body is
guarded by `self.iquality == 4 or self.iquality == 5`. -/
def triggerStep (cfg : BandConfig) (q : ℕ) (d : ℚ) (s : Stat) : Stat × Bool :=
  if q = 4 ∨ q = 5 then triggerCore cfg d s else (s, false)

/-- Run `triggerApRES` over a sequence of displacement values, all with
the same fix quality, recording the post-cycle state and whether the
burst fired on each cycle. -/
def runTrigger (cfg : BandConfig) (q : ℕ) (s : Stat) : List ℚ → List (Stat × Bool)
  | [] => []
  | d :: ds =>
    let r := triggerStep cfg q d s
    r :: runTrigger cfg q r.1 ds

/-- Band used by `Run.py`: `stepsize = 150`, `min_err = 150 - 1.5 = 148.5`,
`max_err = 150 + 10.5 = 160.5`, RTK sensitivity enabled. -/
def c1Band : BandConfig := { minErr := Rat.divInt 297 2, maxErr := Rat.divInt 321 2, RTKsens := true }

/-- C1 counterexample: on the displacement sequence `[0, 50, 150, 155, 300]`
with band `(148.5, 160.5)` the acquisition trigger fires TWICE — at
displacement 150 (which already lies strictly inside the band) and at
displacement 155 — not exactly once at 155 as claimed. -/
theorem c1_trigger_fires_at_150_and_155 :
    (runTrigger c1Band 4 Stat.movingForward [0, 50, 150, 155, 300]).map Prod.snd
      = [false, false, true, true, false] ∧
    ((runTrigger c1Band 4 Stat.movingForward [0, 50, 150, 155, 300]).map Prod.snd).count true ≠ 1 := by
  decide

/-- C1 (amended): with `stepSizeCm = 150`, `minErrCm = 148.5`,
`maxErrCm = 160.5`, starting from `MovingForward`, the displacement
sequence `[0, 50, 150, 155, 300]` (RTK-quality fixes) yields post-cycle
states `MovingForward, MovingForward, MovingForward, MovingForward,
MovingBackward`; `robustBurst` is invoked exactly twice, at displacements
150 and 155 (each of which passes through `WellPositioned` transiently
before the immediate re-arm to `MovingForward`). -/
theorem c1_band_sequence :
    runTrigger c1Band 4 Stat.movingForward [0, 50, 150, 155, 300]
      = [(Stat.movingForward, false), (Stat.movingForward, false),
         (Stat.movingForward, true), (Stat.movingForward, true),
         (Stat.movingBackward, false)] := by
  decide

/-- GPS fix as consumed by the controller: decimal-degree latitude and
longitude plus the GGA quality code `self.iquality` (0-5). -/
structure Fix where
  lat : ℚ
  lon : ℚ
  iquality : ℕ
deriving DecidableEq

/-- Mutable controller fields touched by `updateDistance`/`triggerApRES`:
the acquisition state `self.stat`, the survey reference point
`self.refLat`/`self.refLon` (`none` models the initial `[]`), and the last
computed displacement `self.moveDist` in centimetres. -/
structure CtrlState where
  stat : Stat
  refPt : Option (ℚ × ℚ)
  moveDist : ℚ
deriving DecidableEq

/-- Python `round(x, 0)`: round half to even (banker's rounding). -/
def pyRound (x : ℚ) : ℚ :=
  if x - (⌊x⌋ : ℚ) < Rat.divInt 1 2 then ((⌊x⌋ : ℤ) : ℚ)
  else if Rat.divInt 1 2 < x - (⌊x⌋ : ℚ) then ((⌊x⌋ + 1 : ℤ) : ℚ)
  else if 2 ∣ ⌊x⌋ then ((⌊x⌋ : ℤ) : ℚ) else ((⌊x⌋ + 1 : ℤ) : ℚ)

/-- RTK condition of `updateDistance`: with `RTKsens` the fix quality must
be 4 (RTK int) or 5 (RTK float), otherwise any quality is accepted. -/
def rtkCond (cfg : BandConfig) (q : ℕ) : Bool :=
  if cfg.RTKsens then (q == 4 || q == 5) else true

/-- One call of `updateDistance`, parametrised by the haversine distance
function `dfun` (metres between two (lat, lon) pairs).  On the first fix
the reference point is set and `moveDist` is zeroed regardless of RTK
quality; afterwards, displacement is recomputed (haversine × 100,
rounded) only when the RTK condition holds, else the state is untouched
(a degraded-accuracy warning is announced instead). -/
def updateDistance (dfun : ℚ × ℚ → ℚ × ℚ → ℚ) (cfg : BandConfig) (fix : Fix)
    (st : CtrlState) : CtrlState :=
  match st.refPt with
  | none => { st with refPt := some (fix.lat, fix.lon), moveDist := 0 }
  | some ref =>
    if rtkCond cfg fix.iquality then
      { st with moveDist := pyRound (dfun (fix.lat, fix.lon) ref * 100) }
    else st

/-- One call of `triggerApRES` on the full controller state: guarded on
RTK-quality fix; when the band is entered, `robustBurst` fires, the
reference point is reset to the current fix and the state is re-armed to
`moving forward`. -/
def triggerApRES (cfg : BandConfig) (fix : Fix) (st : CtrlState) : CtrlState × Bool :=
  if fix.iquality = 4 ∨ fix.iquality = 5 then
    if (triggerCore cfg st.moveDist st.stat).2 then
      ({ st with stat := Stat.movingForward, refPt := some (fix.lat, fix.lon) }, true)
    else ({ st with stat := (triggerCore cfg st.moveDist st.stat).1 }, false)
  else (st, false)

/-- One iteration of the main loop of `Run.py`: `updateDistance` followed
by `triggerApRES` on the same fix. -/
def cycle (dfun : ℚ × ℚ → ℚ × ℚ → ℚ) (cfg : BandConfig) (fix : Fix)
    (st : CtrlState) : CtrlState × Bool :=
  triggerApRES cfg fix (updateDistance dfun cfg fix st)

theorem pyRound_zero : pyRound 0 = 0 := by
  simp [pyRound]

theorem triggerCore_zero (cfg : BandConfig) (h0 : 0 ≤ cfg.minErr)
    (h1 : cfg.minErr ≤ cfg.maxErr) :
    triggerCore cfg 0 Stat.movingForward = (Stat.movingForward, false) := by
  simp only [triggerCore, fwdStep, backStep, bandStep]
  split_ifs with hA hB hC <;> simp_all <;> linarith

theorem triggerCore_snd_true {cfg : BandConfig} {d : ℚ} {s : Stat}
    (h : (triggerCore cfg d s).2 = true) : cfg.minErr < d ∧ d < cfg.maxErr := by
  simp only [triggerCore, fwdStep, backStep, bandStep] at h
  split_ifs at h with hA hB hC <;> simp_all

theorem triggerCore_noburst_fix {cfg : BandConfig} {d : ℚ} {s s2 : Stat}
    (h : triggerCore cfg d s = (s2, false)) :
    triggerCore cfg d s2 = (s2, false) := by
  cases s <;>
    simp only [triggerCore, fwdStep, backStep, bandStep] at h ⊢ <;>
    split_ifs at h ⊢ <;> simp_all

theorem upd_stat (dfun : ℚ × ℚ → ℚ × ℚ → ℚ) (cfg : BandConfig) (fix : Fix)
    (st : CtrlState) : (updateDistance dfun cfg fix st).stat = st.stat := by
  rcases h : st.refPt with _ | r
  · simp only [updateDistance, h]
  · simp only [updateDistance, h]
    split_ifs <;> rfl

theorem upd_refPt_of_some {dfun : ℚ × ℚ → ℚ × ℚ → ℚ} {cfg : BandConfig} {fix : Fix}
    {st : CtrlState} {r : ℚ × ℚ} (h : st.refPt = some r) :
    (updateDistance dfun cfg fix st).refPt = some r := by
  simp only [updateDistance, h]
  split_ifs <;> simp [h]

theorem upd_refPt_isSome (dfun : ℚ × ℚ → ℚ × ℚ → ℚ) (cfg : BandConfig) (fix : Fix)
    (st : CtrlState) : ∃ r, (updateDistance dfun cfg fix st).refPt = some r := by
  rcases h : st.refPt with _ | r
  · exact ⟨(fix.lat, fix.lon), by simp only [updateDistance, h]⟩
  · exact ⟨r, upd_refPt_of_some h⟩

theorem rtkCond_of_quality {cfg : BandConfig} {q : ℕ} (hq : q = 4 ∨ q = 5) :
    rtkCond cfg q = true := by
  rcases hq with h | h <;> cases hs : cfg.RTKsens <;> simp [rtkCond, hs, h]

/-- C8: the controller cycle (`updateDistance` then `triggerApRES`) is
idempotent under a stationary fix.  For every band configuration with
`0 ≤ minErr ≤ maxErr`, every displacement function with zero
self-distance, every controller state and every GPS fix, running a second
cycle on the same fix leaves the acquisition state and the reference
point exactly as after the first cycle, and the burst trigger does not
fire on the second cycle. -/
theorem c8_stationary_fix_idempotent (dfun : ℚ × ℚ → ℚ × ℚ → ℚ)
    (cfg : BandConfig) (fix : Fix) (st : CtrlState)
    (hd : ∀ p, dfun p p = 0) (h0 : 0 ≤ cfg.minErr) (h1 : cfg.minErr ≤ cfg.maxErr) :
    (cycle dfun cfg fix (cycle dfun cfg fix st).1).1.stat = (cycle dfun cfg fix st).1.stat ∧
    (cycle dfun cfg fix (cycle dfun cfg fix st).1).1.refPt = (cycle dfun cfg fix st).1.refPt ∧
    (cycle dfun cfg fix (cycle dfun cfg fix st).1).2 = false := by
  have hP : dfun (fix.lat, fix.lon) (fix.lat, fix.lon) * 100 = 0 := by
    rw [hd (fix.lat, fix.lon)]; ring
  by_cases hq : fix.iquality = 4 ∨ fix.iquality = 5
  · have hrtk : rtkCond cfg fix.iquality = true := rtkCond_of_quality hq
    rcases href : st.refPt with _ | p
    · -- first fix of the run: reference point is created, moveDist := 0
      have hup : updateDistance dfun cfg fix st =
          { st with refPt := some (fix.lat, fix.lon), moveDist := 0 } := by
        simp only [updateDistance, href]
      rcases hb : triggerCore cfg 0 st.stat with ⟨s2, b⟩
      cases b
      · -- no burst on the first cycle
        have e1 : cycle dfun cfg fix st =
            (⟨s2, some (fix.lat, fix.lon), 0⟩, false) := by
          simp [cycle, hup, triggerApRES, hq, hb]
        have e2 : cycle dfun cfg fix (⟨s2, some (fix.lat, fix.lon), 0⟩ : CtrlState) =
            (⟨s2, some (fix.lat, fix.lon), 0⟩, false) := by
          have hup2 : updateDistance dfun cfg fix
              (⟨s2, some (fix.lat, fix.lon), 0⟩ : CtrlState) =
              ⟨s2, some (fix.lat, fix.lon), 0⟩ := by
            simp only [updateDistance, hrtk, hP, pyRound_zero, if_true]
          have hb2 := triggerCore_noburst_fix hb
          simp [cycle, hup2, triggerApRES, hq, hb2]
        simp [e1, e2]
      · -- the first cycle cannot fire: displacement 0 is below the band
        have := (triggerCore_snd_true (by rw [hb])).1
        exact absurd this (by simp; linarith)
    · -- reference point already set: displacement is recomputed
      have hup : updateDistance dfun cfg fix st =
          { st with moveDist := pyRound (dfun (fix.lat, fix.lon) p * 100) } := by
        simp only [updateDistance, href, hrtk, if_true]
      rcases hb : triggerCore cfg (pyRound (dfun (fix.lat, fix.lon) p * 100)) st.stat
        with ⟨s2, b⟩
      cases b
      · -- no burst: the second cycle recomputes the same displacement
        have e1 : cycle dfun cfg fix st =
            (⟨s2, some p, pyRound (dfun (fix.lat, fix.lon) p * 100)⟩, false) := by
          simp [cycle, hup, triggerApRES, hq, hb, href]
        have e2 : cycle dfun cfg fix
            (⟨s2, some p, pyRound (dfun (fix.lat, fix.lon) p * 100)⟩ : CtrlState) =
            (⟨s2, some p, pyRound (dfun (fix.lat, fix.lon) p * 100)⟩, false) := by
          have hup2 : updateDistance dfun cfg fix
              (⟨s2, some p, pyRound (dfun (fix.lat, fix.lon) p * 100)⟩ : CtrlState) =
              ⟨s2, some p, pyRound (dfun (fix.lat, fix.lon) p * 100)⟩ := by
            simp only [updateDistance, hrtk, if_true]
          have hb2 := triggerCore_noburst_fix hb
          simp [cycle, hup2, triggerApRES, hq, hb2]
        simp [e1, e2]
      · -- burst fired: reference reset to the fix, state re-armed to MovingForward
        have e1 : cycle dfun cfg fix st =
            (⟨Stat.movingForward, some (fix.lat, fix.lon),
              pyRound (dfun (fix.lat, fix.lon) p * 100)⟩, true) := by
          simp [cycle, hup, triggerApRES, hq, hb]
        have e2 : cycle dfun cfg fix
            (⟨Stat.movingForward, some (fix.lat, fix.lon),
              pyRound (dfun (fix.lat, fix.lon) p * 100)⟩ : CtrlState) =
            (⟨Stat.movingForward, some (fix.lat, fix.lon), 0⟩, false) := by
          have hup2 : updateDistance dfun cfg fix
              (⟨Stat.movingForward, some (fix.lat, fix.lon),
                pyRound (dfun (fix.lat, fix.lon) p * 100)⟩ : CtrlState) =
              ⟨Stat.movingForward, some (fix.lat, fix.lon), 0⟩ := by
            simp only [updateDistance, hrtk, hP, pyRound_zero, if_true]
          have hz := triggerCore_zero cfg h0 h1
          simp [cycle, hup2, triggerApRES, hq, hz]
        simp [e1, e2]
  · -- non-RTK fix: the trigger body is skipped entirely on both cycles
    obtain ⟨r, hr⟩ := upd_refPt_isSome dfun cfg fix st
    have e2 : ∀ x : CtrlState, cycle dfun cfg fix x = (updateDistance dfun cfg fix x, false) := by
      intro x
      simp [cycle, triggerApRES, hq]
    rw [e2, e2]
    dsimp only
    exact ⟨upd_stat dfun cfg fix _, by rw [upd_refPt_of_some hr, hr], rfl⟩

/-- Displacement function that is identically zero, used as a concrete
instance of the haversine distance for witness evaluation. -/
def dzero : ℚ × ℚ → ℚ × ℚ → ℚ := fun _ _ => 0

/-- Concrete RTK-quality fix for witness evaluation. -/
def c8fix : Fix := ⟨1, 2, 4⟩

/-- Concrete controller state for witness evaluation. -/
def c8st : CtrlState := ⟨Stat.movingBackward, none, 7⟩

/-- Witness for C8: concrete instantiation of the idempotence theorem at
the `Run.py` band, a zero displacement function, an RTK fix and a
`MovingBackward` state with unset reference point. -/
theorem c8_stationary_fix_idempotent_witness :
    (dzero (1, 2) (1, 2) = 0 ∧ 0 ≤ c1Band.minErr ∧ c1Band.minErr ≤ c1Band.maxErr) ∧
    ((cycle dzero c1Band c8fix (cycle dzero c1Band c8fix c8st).1).1.stat
        = (cycle dzero c1Band c8fix c8st).1.stat ∧
      (cycle dzero c1Band c8fix (cycle dzero c1Band c8fix c8st).1).1.refPt
        = (cycle dzero c1Band c8fix c8st).1.refPt ∧
      (cycle dzero c1Band c8fix (cycle dzero c1Band c8fix c8st).1).2 = false) :=
  ⟨⟨rfl, by decide, by decide⟩,
    c8_stationary_fix_idempotent dzero c1Band c8fix c8st (fun _ => rfl)
      (by decide) (by decide)⟩

end ApRES

namespace Apreshttp

/-- Outcome of the `txAnt`/`rxAnt` validation block in `Radar.Config.set`:
either the mask is accepted (joined into the POST data), or a `ValueError`
is raised for a non-binary element (with its position), for a mask with no
enabled antenna, or for an argument that is not an 8-element tuple. -/
inductive MaskCheck where
  | accepted (mask : List ℤ)
  | badElement (idx : ℕ)
  | noneEnabled
  | notTuple8
deriving DecidableEq

/-- Loop body of the antenna-mask block: for each element `v`, raise if
`v != 0 and v != 1` (reporting the current `count` as the position),
otherwise `count = count + 1`.  Note the increment is unconditional per
element, so the final count is the number of elements, not the number of
set bits. -/
def maskLoop : List ℤ → ℕ → Except ℕ ℕ
  | [], count => Except.ok count
  | v :: rest, count =>
    if v ≠ 0 ∧ v ≠ 1 then Except.error count else maskLoop rest (count + 1)

/-- Antenna-mask validation of `Radar.Config.set` (identical for `txAnt`
and `rxAnt`): an 8-element tuple of 0/1 flags is accepted when
`count > 0`, otherwise the "Must have at least one rxAntenna enabled."
error is raised. -/
def checkAntennaMask (mask : List ℤ) : MaskCheck :=
  if mask.length = 8 then
    match maskLoop mask 0 with
    | Except.error i => MaskCheck.badElement i
    | Except.ok count =>
      if count > 0 then MaskCheck.accepted mask else MaskCheck.noneEnabled
  else MaskCheck.notTuple8

theorem maskLoop_ok_count :
    ∀ (mask : List ℤ) (c n : ℕ), maskLoop mask c = Except.ok n → n = c + mask.length := by
  intro mask
  induction mask with
  | nil =>
    intro c n h
    simp only [maskLoop, Except.ok.injEq] at h
    simp only [List.length_nil]
    omega
  | cons v rest ih =>
    intro c n h
    simp only [maskLoop] at h
    split_ifs at h
    have := ih (c + 1) n h
    simp only [List.length_cons]
    omega

/-- C2: the all-zero 8-element antenna mask is ACCEPTED by
`Radar.Config.set` and sent to the device, because the loop counter
counts elements rather than set bits; the "at least one antenna enabled"
rejection branch is unreachable for every input.  Masks that are not
8-element tuples of binary flags are rejected as claimed. -/
theorem c2_zero_mask_accepted :
    checkAntennaMask [0, 0, 0, 0, 0, 0, 0, 0]
      = MaskCheck.accepted [0, 0, 0, 0, 0, 0, 0, 0] ∧
    checkAntennaMask [0, 1] = MaskCheck.notTuple8 ∧
    checkAntennaMask [0, 1, 2, 0, 0, 0, 0, 0] = MaskCheck.badElement 2 ∧
    (∀ mask : List ℤ, checkAntennaMask mask ≠ MaskCheck.noneEnabled) := by
  refine ⟨by decide, by decide, by decide, ?_⟩
  intro mask
  unfold checkAntennaMask
  split_ifs with hlen
  · rcases hml : maskLoop mask 0 with i | n
    · simp
    · have hn : n = 0 + mask.length := maskLoop_ok_count mask 0 n hml
      have : n > 0 := by omega
      simp [this]
  · simp

/-- Result of the burst-start POST as seen by the client: either the
connection failed at transport level (`requests.exceptions.ConnectionError`),
or a response arrived with a status code and a body that may or may not
carry an `errorMessage` key. -/
inductive Transport where
  | connFail
  | resp (status : ℕ) (hasErrorMessage : Bool)
deriving DecidableEq

/-- Exceptions observable from `Radar.burst` / `Radar.trialBurst`:
`RadarBusyException`, or the transport `ConnectionError` propagating
unhandled. -/
inductive BurstErr where
  | radarBusy
  | connectionError
deriving DecidableEq

/-- Burst-start handling of `Radar.trialBurst`: the POST is wrapped in
`try/except ConnectionError`, which re-raises `RadarBusyException`; a
response with status other than `VALID_BURST_STATUS_CODE = 303` raises
`RadarBusyException` whether or not the body carries `errorMessage` (only
the exception text differs). -/
def trialBurst : Transport → Except BurstErr Unit
  | Transport.connFail => Except.error BurstErr.radarBusy
  | Transport.resp status _hasMsg =>
    if status = 303 then Except.ok () else Except.error BurstErr.radarBusy

/-- Burst-start handling of `Radar.burst`: identical status handling to
`trialBurst`, but the POST is NOT wrapped in a `try/except`, so a
transport `ConnectionError` propagates to the caller unchanged. -/
def burst : Transport → Except BurstErr Unit
  | Transport.connFail => Except.error BurstErr.connectionError
  | Transport.resp status _hasMsg =>
    if status = 303 then Except.ok () else Except.error BurstErr.radarBusy

/-- C3 counterexample: a non-303 response whose body carries no error
message makes both burst starters raise `RadarBusyException` — not a
distinct `BurstRejected` error as claimed — and a transport connection
failure during `Radar.burst` propagates as the transport error instead of
being reclassified as `RadarBusy`. -/
theorem c3_no_burstRejected_and_burst_propagates :
    trialBurst (Transport.resp 500 false) = Except.error BurstErr.radarBusy ∧
    burst (Transport.resp 500 false) = Except.error BurstErr.radarBusy ∧
    burst Transport.connFail = Except.error BurstErr.connectionError :=
  ⟨rfl, rfl, rfl⟩

/-- C3 (amended): for both burst starters, status 303 means success and
any other status raises `RadarBusy` regardless of whether the body
carries an error message (no separate `BurstRejected` error exists);
`trialBurst` reclassifies a transport connection failure as `RadarBusy`,
while `burst` lets it propagate as a transport error. -/
theorem c3_burst_status_handling (status : ℕ) (hasMsg : Bool) :
    (trialBurst (Transport.resp status hasMsg)
      = if status = 303 then Except.ok () else Except.error BurstErr.radarBusy) ∧
    (burst (Transport.resp status hasMsg)
      = if status = 303 then Except.ok () else Except.error BurstErr.radarBusy) ∧
    trialBurst Transport.connFail = Except.error BurstErr.radarBusy ∧
    burst Transport.connFail = Except.error BurstErr.connectionError :=
  ⟨rfl, rfl, rfl, rfl⟩

/-- Radar configuration as read back from `radar/config`
(`Radar.Config.readResponse`). -/
structure DeviceConfig where
  nAttenuators : ℕ
  nSubBursts : ℕ
  nAverages : ℕ
  rfAttn : List ℚ
  afGain : List ℚ
  txAntenna : List ℕ
  rxAntenna : List ℕ
  userData : String
deriving DecidableEq

/-- Fields the caller asked `Radar.Config.set` to change.  `validRf` and
`validAf` are the entries produced by `parseRFAttnAFGain`, as (1-based
index, value) pairs. -/
structure SetRequest where
  nAtts : Option ℕ
  nBursts : Option ℕ
  nAverages : Option ℕ
  validRf : List (ℕ × ℚ)
  validAf : List (ℕ × ℚ)
  txAnt : Option (List ℤ)
  rxAnt : Option (List ℤ)
  userData : Option String
deriving DecidableEq

/-- Exceptions raised in the response-handling part of `Radar.Config.set`:
`BadResponseException`, `DidNotUpdateException`, or a Python `IndexError`
from indexing `rfAttn`/`afGain` out of range. -/
inductive SetErr where
  | badResponse
  | didNotUpdate
  | indexError
deriving DecidableEq

/-- Sequencing of two checks: the first raised exception wins. -/
def seqE : Except SetErr Unit → Except SetErr Unit → Except SetErr Unit
  | Except.ok _, y => y
  | Except.error e, _ => Except.error e

/-- Check `x != None and x != actual` raising `DidNotUpdateException`. -/
def chkOpt {α : Type} [DecidableEq α] : Option α → α → Except SetErr Unit
  | some a, actual =>
    if a = actual then Except.ok () else Except.error SetErr.didNotUpdate
  | none, _ => Except.ok ()

/-- Per-entry check of `valid_rf`/`valid_af` against the re-read values:
`idx = int(key[-1]) - 1; if value != self.rfAttn[idx]: raise`. -/
def checkEntries (vals : List ℚ) : List (ℕ × ℚ) → Except SetErr Unit
  | [] => Except.ok ()
  | (i, v) :: rest =>
    match vals[i - 1]? with
    | some w =>
      if v = w then checkEntries vals rest else Except.error SetErr.didNotUpdate
    | none => Except.error SetErr.indexError

/-- Sanity check at the end of `readResponse`: the lengths of the
attenuation and gain lists must equal `nAttenuators`. -/
def readResponseCheck (cfg : DeviceConfig) : Except SetErr Unit :=
  if cfg.rfAttn.length = cfg.nAttenuators ∧ cfg.afGain.length = cfg.nAttenuators then
    Except.ok ()
  else Except.error SetErr.badResponse

/-- Response handling of `Radar.Config.set` after the POST: status 400
raises `BadResponseException`; status 200 re-reads the configuration
(`readResponse`) and then compares ONLY `nAtts`, `nBursts` and the
`valid_rf`/`valid_af` entries against the re-read values.  The requested
`nAverages`, `txAnt`, `rxAnt` and `userData` are posted but never
re-verified.  Any other status returns without raising. -/
def configSetVerify (req : SetRequest) (status : ℕ) (cfg : DeviceConfig) :
    Except SetErr Unit :=
  if status = 400 then Except.error SetErr.badResponse
  else if status = 200 then
    seqE (readResponseCheck cfg)
      (seqE (chkOpt req.nAtts cfg.nAttenuators)
        (seqE (chkOpt req.nBursts cfg.nSubBursts)
          (seqE (checkEntries cfg.rfAttn req.validRf)
            (checkEntries cfg.afGain req.validAf))))
  else Except.ok ()

theorem seqE_ok_iff (x y : Except SetErr Unit) :
    seqE x y = Except.ok () ↔ x = Except.ok () ∧ y = Except.ok () := by
  rcases x with u | e
  · simp [seqE]
  · simp [seqE]

theorem chkOpt_ok_iff {α : Type} [DecidableEq α] (o : Option α) (a : α) :
    chkOpt o a = Except.ok () ↔ ∀ b ∈ o, b = a := by
  rcases o with _ | b
  · simp [chkOpt]
  · by_cases h : b = a
    · simp [chkOpt, h]
    · simp [chkOpt, h]

theorem checkEntries_ok_iff (vals : List ℚ) (l : List (ℕ × ℚ)) :
    checkEntries vals l = Except.ok () ↔
      ∀ p ∈ l, vals[p.1 - 1]? = some p.2 := by
  induction l with
  | nil => simp [checkEntries]
  | cons p rest ih =>
    rcases p with ⟨i, v⟩
    rcases hv : vals[i - 1]? with _ | w
    · simp [checkEntries, hv]
    · simp only [checkEntries, hv, List.mem_cons]
      split_ifs with h
      · subst h
        simp only [ih]
        constructor
        · intro hall q hq
          rcases hq with hq | hq
          · subst hq
            simpa using hv
          · exact hall q hq
        · intro hall q hq
          exact hall q (Or.inr hq)
      · constructor
        · intro hc
          exact absurd hc (by simp)
        · intro hall
          have := hall (i, v) (Or.inl rfl)
          rw [hv] at this
          simp only [Option.some.injEq] at this
          exact absurd this.symm h

/-- C4 (amended): for a POST answered with status 200, `Radar.Config.set`
re-reads the configuration and succeeds exactly when the re-read list
lengths are consistent and the requested attenuator count, sub-burst
count and each supplied rf-attenuation/af-gain entry match the re-read
values (any mismatch raises `DidNotUpdateException`).  The requested
average count, antenna masks and user data are NOT re-verified. -/
theorem c4_set_verifies_only_four_fields (req : SetRequest) (cfg : DeviceConfig) :
    configSetVerify req 200 cfg = Except.ok () ↔
      (cfg.rfAttn.length = cfg.nAttenuators ∧ cfg.afGain.length = cfg.nAttenuators) ∧
      (∀ a ∈ req.nAtts, a = cfg.nAttenuators) ∧
      (∀ b ∈ req.nBursts, b = cfg.nSubBursts) ∧
      (∀ p ∈ req.validRf, cfg.rfAttn[p.1 - 1]? = some p.2) ∧
      (∀ p ∈ req.validAf, cfg.afGain[p.1 - 1]? = some p.2) := by
  have hs : configSetVerify req 200 cfg =
      seqE (readResponseCheck cfg)
        (seqE (chkOpt req.nAtts cfg.nAttenuators)
          (seqE (chkOpt req.nBursts cfg.nSubBursts)
            (seqE (checkEntries cfg.rfAttn req.validRf)
              (checkEntries cfg.afGain req.validAf)))) := by
    simp [configSetVerify]
  rw [hs]
  have hr : readResponseCheck cfg = Except.ok () ↔
      (cfg.rfAttn.length = cfg.nAttenuators ∧ cfg.afGain.length = cfg.nAttenuators) := by
    unfold readResponseCheck
    split_ifs with h <;> simp [h]
  simp only [seqE_ok_iff, chkOpt_ok_iff, checkEntries_ok_iff, hr]

/-- Concrete request for the C4 counterexample: the caller asks to change
the average count (to 7), the tx antenna mask and the user data, besides
the four fields that are actually verified. -/
def c4req : SetRequest :=
  { nAtts := some 1, nBursts := some 5, nAverages := some 7,
    validRf := [(1, 25)], validAf := [(1, 14)],
    txAnt := some [1, 1, 0, 0, 0, 0, 0, 0], rxAnt := none,
    userData := some "RTK150" }

/-- Concrete re-read configuration for the C4 counterexample: the device
silently kept `nAverages = 3`, an unchanged tx mask and the old user
data. -/
def c4cfg : DeviceConfig :=
  { nAttenuators := 1, nSubBursts := 5, nAverages := 3,
    rfAttn := [25], afGain := [14],
    txAntenna := [1, 0, 0, 0, 0, 0, 0, 0], rxAntenna := [1, 0, 0, 0, 0, 0, 0, 0],
    userData := "OLD" }

/-- C4 counterexample: a status-200 update in which the device silently
ignored the requested average count (7 requested, 3 re-read), tx antenna
mask and user data still passes `Radar.Config.set` verification without
`DidNotUpdateException` — the claim that every requested field is
verified is false. -/
theorem c4_unverified_fields_accepted :
    configSetVerify c4req 200 c4cfg = Except.ok () ∧
    c4req.nAverages = some 7 ∧ c4cfg.nAverages = 3 ∧
    c4req.userData = some "RTK150" ∧ c4cfg.userData = "OLD" ∧
    c4req.txAnt = some [1, 1, 0, 0, 0, 0, 0, 0] ∧
    c4cfg.txAntenna = [1, 0, 0, 0, 0, 0, 0, 0] :=
  ⟨rfl, rfl, rfl, rfl, rfl, rfl, rfl⟩

/-- Timeout computed by `Radar.__getResults` from the freshly fetched
configuration: `(sum(txAntenna) * sum(rxAntenna)) * (nSubBursts +
nAverages) * nAttenuators * 2 + api.timeout`, allowing two seconds per
chirp on top of the base HTTP timeout (default 30 s). -/
def resultsTimeoutSeconds (cfg : DeviceConfig) (base : ℕ) : ℕ :=
  (cfg.txAntenna.sum * cfg.rxAntenna.sum) * (cfg.nSubBursts + cfg.nAverages) *
    cfg.nAttenuators * 2 + base

/-- Status reported by the `radar/results` route. -/
inductive PollStatus where
  | idle
  | busy
  | finished
deriving DecidableEq

/-- Exceptions raised by `Radar.__getResults`. -/
inductive ResultsErr where
  | noChirpStarted
  | resultsTimeout
deriving DecidableEq

/-- Polling loop of `Radar.__getResults`: iteration `k` starts at elapsed
time `k * interval` (one `time.sleep(api.resultsInterval)` between
polls) and runs only while the elapsed time is below the timeout; an
`idle` status raises `NoChirpStartedException`, `finished` returns the
results, and leaving the loop raises `ResultsTimeoutException`.  The
fuel argument only bounds the recursion and is chosen large enough that
it never runs out before the time check fails. -/
def pollLoop (statuses : ℕ → PollStatus) (interval timeout : ℕ) :
    ℕ → ℕ → Except ResultsErr ℕ
  | _, 0 => Except.error ResultsErr.resultsTimeout
  | k, fuel + 1 =>
    if k * interval < timeout then
      match statuses k with
      | PollStatus.idle => Except.error ResultsErr.noChirpStarted
      | PollStatus.finished => Except.ok k
      | PollStatus.busy => pollLoop statuses interval timeout (k + 1) fuel
    else Except.error ResultsErr.resultsTimeout

/-- Full `Radar.__getResults` on a stream of poll responses, with the
default `api.resultsInterval = 2` seconds between polls. -/
def getResults (cfg : DeviceConfig) (base : ℕ) (statuses : ℕ → PollStatus) :
    Except ResultsErr ℕ :=
  pollLoop statuses 2 (resultsTimeoutSeconds cfg base) 0
    (resultsTimeoutSeconds cfg base + 1)

/-- Configuration of the C5 example: tx mask sum 2, rx mask sum 1,
5 sub-bursts, 0 averages, 1 attenuator. -/
def c5cfg : DeviceConfig :=
  { nAttenuators := 1, nSubBursts := 5, nAverages := 0,
    rfAttn := [25], afGain := [14],
    txAntenna := [1, 1, 0, 0, 0, 0, 0, 0], rxAntenna := [1, 0, 0, 0, 0, 0, 0, 0],
    userData := "" }

/-- C5: the results-await timeout is `(Σtx × Σrx) × (nSubBursts +
nAverages) × nAttenuators × 2 + base`; for tx sum 2, rx sum 1, 5
sub-bursts, 0 averages, 1 attenuator and base 30 it equals exactly 50
seconds, and a device that stays `busy` past the timeout makes
`__getResults` fail with `ResultsTimeoutException`. -/
theorem c5_results_timeout_formula :
    resultsTimeoutSeconds c5cfg 30 = 50 ∧
    (∀ (cfg : DeviceConfig) (base : ℕ),
      resultsTimeoutSeconds cfg base =
        cfg.txAntenna.sum * cfg.rxAntenna.sum * (cfg.nSubBursts + cfg.nAverages) *
          cfg.nAttenuators * 2 + base) ∧
    getResults c5cfg 30 (fun _ => PollStatus.busy)
      = Except.error ResultsErr.resultsTimeout :=
  ⟨rfl, fun _ _ => rfl, rfl⟩

/-- Fields of the `data` route response used by
`Data.DirectoryListing.load`: the total number of objects in the
directory (`length`), the start index (`index`) and the page size
(`list`). -/
structure DirResponse where
  length : ℕ
  index : ℕ
  list : ℕ
deriving DecidableEq

/-- Pagination fields computed by `Data.DirectoryListing.load`. -/
structure ListingPages where
  page : ℤ
  pages : ℤ
deriving DecidableEq

/-- Pagination part of `Data.DirectoryListing.load`:
`pages = math.ceil(length / list)` and `page = math.floor(index / list)`
over true (rational) division. -/
def loadPagination (r : DirResponse) : ListingPages :=
  { page := ⌊(r.index : ℚ) / (r.list : ℚ)⌋,
    pages := ⌈(r.length : ℚ) / (r.list : ℚ)⌉ }

theorem ceil_natCast_div (total ps : ℕ) (h : 0 < ps) :
    ⌈(total : ℚ) / (ps : ℚ)⌉ = ((total + ps - 1) / ps : ℕ) := by
  obtain ⟨p1, rfl⟩ : ∃ p1, ps = p1 + 1 := ⟨ps - 1, by omega⟩
  have hm : total + (p1 + 1) - 1 = total + p1 := by omega
  rw [hm]
  have h1 := Nat.div_add_mod (total + p1) (p1 + 1)
  have h2 := Nat.mod_lt (total + p1) (show 0 < p1 + 1 by omega)
  set q := (total + p1) / (p1 + 1) with hqdef
  set r := (total + p1) % (p1 + 1) with hrdef
  have h1' : ((p1 : ℚ) + 1) * q + r = total + p1 := by exact_mod_cast h1
  have h2' : (r : ℚ) < (p1 : ℚ) + 1 := by exact_mod_cast h2
  have h2q : (r : ℚ) ≤ (p1 : ℚ) := by exact_mod_cast (show r ≤ p1 by omega)
  have hps : (0 : ℚ) < ((p1 + 1 : ℕ) : ℚ) := by exact_mod_cast Nat.succ_pos p1
  rw [Int.ceil_eq_iff]
  constructor
  · rw [lt_div_iff₀ hps]
    push_cast
    nlinarith
  · rw [div_le_iff₀ hps]
    push_cast
    nlinarith

/-- C6: the directory-listing pagination satisfies
`page = floor(index / pageSize)` and `pages = ceil(total / pageSize)`
(equivalently, natural division `index / ps` and `(total + ps - 1) / ps`),
and in particular `total = 20, pageSize = 16, index = 16` gives page 1 of
2 pages. -/
theorem c6_pagination (total index ps : ℕ) (h : 0 < ps) :
    (loadPagination ⟨total, index, ps⟩).page = ⌊(index : ℚ) / (ps : ℚ)⌋ ∧
    (loadPagination ⟨total, index, ps⟩).pages = ⌈(total : ℚ) / (ps : ℚ)⌉ ∧
    (loadPagination ⟨total, index, ps⟩).page = (index / ps : ℕ) ∧
    (loadPagination ⟨total, index, ps⟩).pages = ((total + ps - 1) / ps : ℕ) ∧
    (loadPagination ⟨20, 16, 16⟩).page = 1 ∧
    (loadPagination ⟨20, 16, 16⟩).pages = 2 := by
  refine ⟨rfl, rfl, ?_, ceil_natCast_div total ps h, ?_, ?_⟩
  · show ⌊(index : ℚ) / (ps : ℚ)⌋ = ((index / ps : ℕ) : ℤ)
    have := Rat.floor_natCast_div_natCast index ps
    exact_mod_cast this
  · show ⌊((16 : ℕ) : ℚ) / ((16 : ℕ) : ℚ)⌋ = (1 : ℤ)
    rw [Rat.floor_natCast_div_natCast 16 16]
    norm_num
  · show ⌈((20 : ℕ) : ℚ) / ((16 : ℕ) : ℚ)⌉ = (2 : ℤ)
    rw [ceil_natCast_div 20 16 (by norm_num)]
    norm_num

/-- Witness for C6: the pagination theorem instantiated at
`total = 20, pageSize = 16, index = 16`. -/
theorem c6_pagination_witness :
    0 < 16 ∧ (loadPagination ⟨20, 16, 16⟩).page = 1 ∧
      (loadPagination ⟨20, 16, 16⟩).pages = 2 :=
  ⟨by decide, (c6_pagination 20 16 16 (by decide)).2.2.2.2.1,
    (c6_pagination 20 16 16 (by decide)).2.2.2.2.2⟩

/-- The protocol marker `"http://"` searched for and prepended by
`API.assignRootURL`. -/
def httpPat : List Char := ['h', 't', 't', 'p', ':', '/', '/']

/-- Python `str.find` for the pattern `"http://"`: index of the first
occurrence, or `none` for `-1`. -/
def findHttp : List Char → Option ℕ
  | [] => if httpPat.isPrefixOf [] then some 0 else none
  | c :: rest =>
    if httpPat.isPrefixOf (c :: rest) then some 0
    else (findHttp rest).map (· + 1)

/-- First normalisation phase of `API.assignRootURL`: if `"http://"`
occurs at a positive index, strip the preceding text; if it does not
occur, prepend it; if it occurs at index 0, keep the string. -/
def normHttp (root : List Char) : List Char :=
  match findHttp root with
  | some i => if 0 < i then root.drop i else root
  | none => httpPat ++ root

/-- `API.assignRootURL`: after the `"http://"` normalisation, remove one
trailing `'/'` if present (`if root[-1] == "/": root = root[0:-1]`). -/
def assignRootURL (root : List Char) : List Char :=
  if (normHttp root).getLast? = some '/' then (normHttp root).dropLast
  else normHttp root

/-- `APIChild.formCompleteURL`: `self.api.root + "/api/" + url_part`. -/
def formCompleteURL (root route : List Char) : List Char :=
  root ++ ['/', 'a', 'p', 'i', '/'] ++ route

theorem isPrefixOf_append_self : ∀ p s : List Char, p.isPrefixOf (p ++ s) = true := by
  intro p s
  induction p with
  | nil => simp
  | cons c t ih => simp [List.cons_append, List.isPrefixOf_cons₂, ih]

theorem findHttp_some_drop :
    ∀ (s : List Char) (i : ℕ), findHttp s = some i → httpPat.isPrefixOf (s.drop i) = true := by
  intro s
  induction s with
  | nil =>
    intro i h
    simp [findHttp, httpPat] at h
  | cons c rest ih =>
    intro i h
    by_cases hp : httpPat.isPrefixOf (c :: rest) = true
    · simp only [findHttp, if_pos hp] at h
      cases h
      exact hp
    · simp only [findHttp, if_neg hp, Option.map_eq_some'] at h
      rcases h with ⟨j, hj, rfl⟩
      simpa using ih j hj

theorem normHttp_startsWith (root : List Char) :
    httpPat.isPrefixOf (normHttp root) = true := by
  unfold normHttp
  rcases hf : findHttp root with _ | i
  · exact isPrefixOf_append_self httpPat root
  · dsimp only
    split_ifs with hi
    · exact findHttp_some_drop root i hf
    · have h0 : i = 0 := by omega
      subst h0
      simpa using findHttp_some_drop root 0 hf

theorem isPrefixOf_exists_append :
    ∀ p s : List Char, p.isPrefixOf s = true → ∃ t, s = p ++ t := by
  intro p
  induction p with
  | nil =>
    intro s _
    exact ⟨s, rfl⟩
  | cons c tp ih =>
    intro s h
    cases s with
    | nil => simp at h
    | cons b ts =>
      rw [List.isPrefixOf_cons₂] at h
      simp only [Bool.and_eq_true, beq_iff_eq] at h
      obtain ⟨rfl, h2⟩ := h
      obtain ⟨t, rfl⟩ := ih ts h2
      exact ⟨t, rfl⟩

/-- C7 counterexample: the sanitiser strips only ONE trailing slash, so
`"http://a//"` is stored as `"http://a/"`, which still ends with `'/'`;
and the empty string is stored as `"http:/"`, which does not start with
`"http://"`.  The claimed invariant fails on both counts. -/
theorem c7_sanitiser_counterexample :
    assignRootURL ("http://a//".toList) = ("http://a/".toList) ∧
    (assignRootURL ("http://a//".toList)).getLast? = some '/' ∧
    assignRootURL ("".toList) = ("http:/".toList) ∧
    httpPat.isPrefixOf (assignRootURL ("".toList)) = false :=
  ⟨rfl, rfl, rfl, rfl⟩

/-- C7 (amended): for every root string whose `"http://"`-normalised form
is not bare `"http://"` (nonempty host) and does not end in a double
slash, the stored root starts with `"http://"` and does not end with
`'/'`, and every request URL is `<root>/api/<route>` with exactly one
slash between root and `api`.  The sanitiser removes only a single
trailing slash, so inputs with two or more trailing slashes (or an empty
host) escape the invariant. -/
theorem c7_root_normalisation (root route : List Char)
    (h1 : normHttp root ≠ httpPat)
    (h2 : ¬((normHttp root).getLast? = some '/' ∧
      (normHttp root).dropLast.getLast? = some '/')) :
    httpPat.isPrefixOf (assignRootURL root) = true ∧
    (assignRootURL root).getLast? ≠ some '/' ∧
    formCompleteURL (assignRootURL root) route
      = assignRootURL root ++ ['/', 'a', 'p', 'i', '/'] ++ route := by
  have hs := normHttp_startsWith root
  unfold assignRootURL
  by_cases hl : (normHttp root).getLast? = some '/'
  · rw [if_pos hl]
    obtain ⟨t, ht⟩ := isPrefixOf_exists_append _ _ hs
    have htne : t ≠ [] := by
      rintro rfl
      exact h1 (by simpa using ht)
    refine ⟨?_, ?_, rfl⟩
    · rw [ht, List.dropLast_append_of_ne_nil httpPat htne]
      exact isPrefixOf_append_self _ _
    · intro hbad
      exact h2 ⟨hl, hbad⟩
  · rw [if_neg hl]
    exact ⟨hs, hl, rfl⟩

/-- Witness for C7 (amended): the sanitiser theorem instantiated at the
root `"192.168.1.1"` used by the survey scripts and the `radar/config`
route. -/
theorem c7_root_normalisation_witness :
    (normHttp ("192.168.1.1".toList) ≠ httpPat ∧
      ¬((normHttp ("192.168.1.1".toList)).getLast? = some '/' ∧
        (normHttp ("192.168.1.1".toList)).dropLast.getLast? = some '/')) ∧
    (httpPat.isPrefixOf (assignRootURL ("192.168.1.1".toList)) = true ∧
      (assignRootURL ("192.168.1.1".toList)).getLast? ≠ some '/' ∧
      formCompleteURL (assignRootURL ("192.168.1.1".toList)) ("radar/config".toList)
        = assignRootURL ("192.168.1.1".toList) ++ ['/', 'a', 'p', 'i', '/']
            ++ ("radar/config".toList)) :=
  ⟨⟨by decide, by decide⟩,
    c7_root_normalisation ("192.168.1.1".toList) ("radar/config".toList)
      (by decide) (by decide)⟩

end Apreshttp

namespace ApRES

/-- Outcome of one `self.ApRES.radar.burst(fn)` attempt inside
`robustBurst`: success, `RadarBusyException`, or `ConnectionError` (the
two retryable exception classes). -/
inductive AttemptOutcome where
  | success
  | busy
  | connErr
deriving DecidableEq

/-- Retry loop of `robustBurst`
(`while (time.perf_counter() - last_burst) < TRY_BURST_TIMEOUT`):
`e` is the elapsed wall-clock time since `last_burst`, and the script
lists each attempt's outcome with its duration.  On success `last_burst`
is reset (elapsed becomes 0) and the loop breaks; on `RadarBusyException`
or `ConnectionError` the attempt counter is bumped and the loop retries;
the loop also ends when the 30-second budget is exhausted.  Returns the
final elapsed time since `last_burst` and whether a burst started. -/
def tryLoop : ℚ → List (AttemptOutcome × ℚ) → ℚ × Bool
  | e, [] => (e, false)
  | e, (o, d) :: rest =>
    if e < 30 then
      match o with
      | AttemptOutcome.success => (0, true)
      | AttemptOutcome.busy => tryLoop (e + d) rest
      | AttemptOutcome.connErr => tryLoop (e + d) rest
    else (e, false)

/-- Observable behaviour of one `robustBurst` call: whether a burst
started, whether the CRITICAL "burst failed after trying for 30 seconds
/ not getting results" report (with the 'fatal error' announcement) was
emitted, whether `radar.results` was invoked (the polling call is
replaced by a fixed 27-second countdown in the source, so it never is),
and whether the call returns normally so the run proceeds to the next
survey point. -/
structure BurstRun where
  started : Bool
  timeoutCritical : Bool
  awaitResultsCalled : Bool
  returnsNormally : Bool
deriving DecidableEq

/-- `ApRES_RTK_SAR.robustBurst` over a script of attempt outcomes: runs
the retry loop, reports the timeout exactly when the post-loop check
`(time.perf_counter() - last_burst) >= TRY_BURST_TIMEOUT` holds, never
calls `radar.results`, and always returns (the download block is wrapped
in its own `try/except`). -/
def robustBurst (script : List (AttemptOutcome × ℚ)) : BurstRun :=
  { started := (tryLoop 0 script).2
    timeoutCritical := if 30 ≤ (tryLoop 0 script).1 then true else false
    awaitResultsCalled := false
    returnsNormally := true }

theorem tryLoop_all_fail :
    ∀ (script : List (AttemptOutcome × ℚ)) (e : ℚ),
      (∀ p ∈ script, p.1 ≠ AttemptOutcome.success) →
      30 ≤ e + (script.map Prod.snd).sum →
      (tryLoop e script).2 = false ∧ 30 ≤ (tryLoop e script).1 := by
  intro script
  induction script with
  | nil =>
    intro e _ hsum
    simp only [List.map_nil, List.sum_nil, add_zero] at hsum
    exact ⟨rfl, hsum⟩
  | cons p rest ih =>
    intro e hfail hsum
    rcases p with ⟨o, d⟩
    by_cases he : e < 30
    · have ho : o ≠ AttemptOutcome.success := hfail (o, d) (List.mem_cons_self _ _)
      have hsum' : 30 ≤ (e + d) + (rest.map Prod.snd).sum := by
        simp only [List.map_cons, List.sum_cons] at hsum
        linarith
      have hrest : ∀ q ∈ rest, q.1 ≠ AttemptOutcome.success := fun q hq =>
        hfail q (List.mem_cons_of_mem _ hq)
      cases o with
      | success => exact absurd rfl ho
      | busy =>
        simpa [tryLoop, he] using ih (e + d) hrest hsum'
      | connErr =>
        simpa [tryLoop, he] using ih (e + d) hrest hsum'
    · have hstop : tryLoop e ((o, d) :: rest) = (e, false) := by
        simp [tryLoop, if_neg he]
      rw [hstop]
      exact ⟨rfl, by linarith⟩

/-- C9: if every burst attempt within the 30-second retry budget fails
with `RadarBusyException` or `ConnectionError` (and the budget is
exhausted), `robustBurst` starts no burst, emits the CRITICAL timeout
report, never invokes `radar.results`, and returns normally so the run
continues to the next survey point. -/
theorem c9_retry_budget_timeout (script : List (AttemptOutcome × ℚ))
    (hfail : ∀ p ∈ script, p.1 ≠ AttemptOutcome.success)
    (hdur : 30 ≤ (script.map Prod.snd).sum) :
    (robustBurst script).started = false ∧
    (robustBurst script).timeoutCritical = true ∧
    (robustBurst script).awaitResultsCalled = false ∧
    (robustBurst script).returnsNormally = true := by
  obtain ⟨h1, h2⟩ := tryLoop_all_fail script 0 hfail (by simpa using hdur)
  exact ⟨h1, by simp [robustBurst, h2], rfl, rfl⟩

/-- Script for the C9 witness: busy, connection-rejected and busy again,
together exhausting the 30-second budget. -/
def c9script : List (AttemptOutcome × ℚ) :=
  [(AttemptOutcome.busy, 10), (AttemptOutcome.connErr, 10), (AttemptOutcome.busy, 15)]

/-- Witness for C9: the retry-budget theorem instantiated at a concrete
all-failing attempt script lasting 35 seconds. -/
theorem c9_retry_budget_timeout_witness :
    30 ≤ (c9script.map Prod.snd).sum ∧
    ((robustBurst c9script).started = false ∧
      (robustBurst c9script).timeoutCritical = true ∧
      (robustBurst c9script).awaitResultsCalled = false ∧
      (robustBurst c9script).returnsNormally = true) :=
  ⟨by norm_num [c9script],
    c9_retry_budget_timeout c9script (by decide) (by norm_num [c9script])⟩

end ApRES
